import Mathlib

/-!
Verification development for the ListingCraft subscription / quota subsystem.

Shallow embedding of the Python source:
  * apps/subscriptions/models.py  (SubscriptionPlan, UserSubscription, Usage)
  * apps/subscriptions/services.py (SubscriptionService)

Conventions of the embedding:
  * Django ORM state is an explicit `DBState` record threaded through the
    operations (association list of subscriptions keyed by user id, a list of
    usage rows, and a fresh-id counter standing for the autoincrement key).
  * `datetime` values are a `DT` record (year, month, day, hour, minute,
    second, microsecond) compared lexicographically, as Python compares
    timezone-aware datetimes of the same zone (everything here is UTC).
  * `timezone.now()` becomes an explicit `now : DT` argument.
  * Python float percentage comparisons `(n / q) * 100 >= t` are modelled
    exactly by the cross-multiplied integer comparison `100 * n >= t * q`.
  * The auto-managed `created_at` / `updated_at` metadata columns play no
    role in any modelled behaviour and are omitted.
  * Email transport is modelled by booleans `emailEnabled` (the module flag
    EMAIL_ENABLED) and `emailOk` (whether the send raises); an attempted
    send is recorded in a `Notif` log.  The `try/except` around each send
    means the operation is total in both cases.
-/

/-- UTC datetime, microsecond precision, mirroring Python `datetime`. -/
structure DT where
  year : Int
  month : Nat
  day : Nat
  hour : Nat
  minute : Nat
  second : Nat
  microsecond : Nat
deriving DecidableEq

/-- Lexicographic order on datetimes: Python comparison of UTC datetimes. -/
def DT.ble (a b : DT) : Bool :=
  if a.year ≠ b.year then a.year < b.year
  else if a.month ≠ b.month then a.month < b.month
  else if a.day ≠ b.day then a.day < b.day
  else if a.hour ≠ b.hour then a.hour < b.hour
  else if a.minute ≠ b.minute then a.minute < b.minute
  else if a.second ≠ b.second then a.second < b.second
  else a.microsecond ≤ b.microsecond

/-- `now.replace(day=1, hour=0, minute=0, second=0, microsecond=0)`
(models.py, Usage.get_or_create_current). -/
def monthFloor (t : DT) : DT :=
  { t with day := 1, hour := 0, minute := 0, second := 0, microsecond := 0 }

/-- The branch of Usage.get_or_create_current computing the next month:
`period_start.replace(year+1, month=1)` when December, else
`period_start.replace(month=month+1)`. -/
def nextMonthStart (p : DT) : DT :=
  if p.month = 12 then { p with year := p.year + 1, month := 1 }
  else { p with month := p.month + 1 }

/-- Gregorian leap-year rule (needed to subtract a second across a month
boundary, as Python `timedelta` arithmetic does on the real timeline). -/
def isLeapYear (y : Int) : Bool :=
  (y % 4 == 0 && y % 100 != 0) || y % 400 == 0

/-- Length of a calendar month. -/
def daysInMonth (y : Int) (m : Nat) : Nat :=
  if m = 2 then (if isLeapYear y then 29 else 28)
  else if m = 4 ∨ m = 6 ∨ m = 9 ∨ m = 11 then 30
  else 31

/-- `t - timedelta(seconds=1)` for a valid datetime: borrow through
minute, hour, day, month, year as timeline arithmetic does. -/
def subSecond (t : DT) : DT :=
  if t.second > 0 then { t with second := t.second - 1 }
  else if t.minute > 0 then { t with minute := t.minute - 1, second := 59 }
  else if t.hour > 0 then { t with hour := t.hour - 1, minute := 59, second := 59 }
  else if t.day > 1 then { t with day := t.day - 1, hour := 23, minute := 59, second := 59 }
  else if t.month = 1 then
    { t with year := t.year - 1, month := 12, day := 31, hour := 23, minute := 59, second := 59 }
  else
    { t with month := t.month - 1, day := daysInMonth t.year (t.month - 1),
             hour := 23, minute := 59, second := 59 }

/-- The billing-period computation inlined in Usage.get_or_create_current:
start = first instant of the month of `now`; end = next month start minus
one second. -/
def currentPeriod (now : DT) : DT × DT :=
  let ps := monthFloor now
  let pe := nextMonthStart ps
  (ps, subSecond pe)

/-- Hinnant civil-from-days: day count since 1970-01-01 to (year, month, day).
All divisors are positive, so Lean's `Int` division (`Int.ediv`) coincides
with Python floor division. -/
def civilFromDays (z0 : Int) : Int × Nat × Nat :=
  let z := z0 + 719468
  let era := z / 146097
  let doe := z - era * 146097
  let yoe := (doe - doe / 1460 + doe / 36524 - doe / 146096) / 365
  let y := yoe + era * 400
  let doy := doe - (365 * yoe + yoe / 4 - yoe / 100)
  let mp := (5 * doy + 2) / 153
  let d := doy - (153 * mp + 2) / 5 + 1
  let m := if mp < 10 then mp + 3 else mp - 9
  ((if m ≤ 2 then y + 1 else y), m.toNat, d.toNat)

/-- `datetime.fromtimestamp(ts, tz=timezone.utc)` for integer epoch
seconds (the provider sends integer epoch timestamps). -/
def fromtimestamp (ts : Int) : DT :=
  let days := ts / 86400 - (if ts % 86400 < 0 then 1 else 0)
  let secs := (ts - days * 86400).toNat
  let ymd := civilFromDays days
  { year := ymd.1, month := ymd.2.1, day := ymd.2.2,
    hour := secs / 3600, minute := secs % 3600 / 60, second := secs % 60,
    microsecond := 0 }

/-- UserSubscription.Status (models.py). -/
inductive Status where
  | ACTIVE | TRIALING | PAST_DUE | CANCELED | UNPAID
deriving DecidableEq

/-- SubscriptionPlan (models.py); only the columns the modelled logic
reads.  `description_quota = -1` means unlimited. -/
structure SubscriptionPlan where
  name : String
  description_quota : Int
  is_active : Bool
deriving DecidableEq

/-- UserSubscription (models.py). -/
structure UserSubscription where
  plan : SubscriptionPlan
  stripe_subscription_id : String
  stripe_customer_id : String
  status : Status
  current_period_start : Option DT
  current_period_end : Option DT
  trial_end : Option DT
  cancel_at_period_end : Bool
  canceled_at : Option DT
deriving DecidableEq

/-- Usage row (models.py); `id` models the autoincrement primary key. -/
structure Usage where
  id : Nat
  user : Nat
  descriptions_generated : Int
  period_start : DT
  period_end : DT
deriving DecidableEq

/-- The database: subscriptions keyed by user id (the OneToOneField),
usage rows, and the next fresh usage primary key. -/
structure DBState where
  subs : List (Nat × UserSubscription)
  usages : List Usage
  nextId : Nat
deriving DecidableEq

/-- Log entries for attempted email sends (EmailService calls). -/
inductive Notif where
  | quotaWarningSent (uid : Nat)
  | quotaWarningFailed (uid : Nat)
  | cancellationSent (uid : Nat)
  | cancellationFailed (uid : Nat)
  | paymentFailedSent (uid : Nat)
  | paymentFailedFailed (uid : Nat)
deriving DecidableEq

/-- The second component of check_usage_quota's return: an int or the
Python string literal value for unlimited. -/
inductive QuotaRemaining where
  | finite (n : Int)
  | unlimited
deriving DecidableEq

/-- `user.subscription` / `hasattr(user, 'subscription')`: the reverse
one-to-one accessor. -/
def lookupSub (l : List (Nat × UserSubscription)) (uid : Nat) : Option UserSubscription :=
  (l.find? (fun p => p.1 == uid)).map (fun p => p.2)

/-- `subscription.save()`: write back the row for user `uid`. -/
def saveSub (st : DBState) (uid : Nat) (s : UserSubscription) : DBState :=
  { st with subs := st.subs.map (fun p => if p.1 == uid then (p.1, s) else p) }

/-- `UserSubscription.objects.get(stripe_subscription_id=sid)` (returning
the owning user id as well); `none` models DoesNotExist. -/
def findSubByStripeId (st : DBState) (sid : String) : Option (Nat × UserSubscription) :=
  st.subs.find? (fun p => p.2.stripe_subscription_id == sid)

/-- The get_or_create lookup filter:
`user=user, period_start__lte=now, period_end__gte=now`. -/
def isCurrentFor (uid : Nat) (now : DT) (r : Usage) : Bool :=
  r.user == uid && DT.ble r.period_start now && DT.ble now r.period_end

/-- First usage row matching the current-period filter. -/
def findCurrent (l : List Usage) (uid : Nat) (now : DT) : Option Usage :=
  l.find? (isCurrentFor uid now)

/-- Usage.get_or_create_current (models.py lines 148-177): look up a row
whose stored period contains `now`; if absent create one with the computed
month boundaries and `descriptions_generated = 0`. -/
def get_or_create_current (st : DBState) (uid : Nat) (now : DT) : Usage × DBState :=
  match findCurrent st.usages uid now with
  | some u => (u, st)
  | none =>
    let pp := currentPeriod now
    let u : Usage := { id := st.nextId, user := uid, descriptions_generated := 0,
                       period_start := pp.1, period_end := pp.2 }
    (u, { st with usages := st.usages ++ [u], nextId := st.nextId + 1 })

/-- `usage.save()`: write back the row with primary key `u.id`. -/
def saveUsage (st : DBState) (u : Usage) : DBState :=
  { st with usages := st.usages.map (fun v => if v.id == u.id then u else v) }

/-- SubscriptionService.check_usage_quota (services.py lines 220-244).
Returns the pair (has_quota, remaining) together with the state (the call
may lazily create the current usage row). -/
def check_usage_quota (st : DBState) (uid : Nat) (now : DT) :
    (Bool × QuotaRemaining) × DBState :=
  match lookupSub st.subs uid with
  | none => ((false, .finite 0), st)
  | some subscription =>
    if subscription.status ≠ .ACTIVE ∧ subscription.status ≠ .TRIALING then
      ((false, .finite 0), st)
    else
      let r := get_or_create_current st uid now
      if subscription.plan.description_quota = -1 then ((true, .unlimited), r.2)
      else
        let remaining := subscription.plan.description_quota - r.1.descriptions_generated
        ((decide (remaining > 0), .finite remaining), r.2)

/-- The email-warning condition of SubscriptionService.increment_usage
(services.py lines 268-272), with the float `percentage` comparisons
`(n / quota) * 100 >= t` rendered exactly as `100 * n >= t * quota`:
`percentage >= 100 or percentage >= 90 or (percentage >= 80 and n % 10 == 0)`
guarded by `quota > 0`. -/
def quotaWarningCondition (n quota : Int) : Bool :=
  quota > 0 &&
    (100 * n ≥ 100 * quota || 100 * n ≥ 90 * quota ||
      (100 * n ≥ 80 * quota && n % 10 == 0))

/-- SubscriptionService.increment_usage (services.py lines 246-278).
Returns (success, state, attempted-notification log). -/
def increment_usage (st : DBState) (uid : Nat) (now : DT)
    (emailEnabled emailOk : Bool) : Bool × DBState × List Notif :=
  let c := check_usage_quota st uid now
  if !c.1.1 then (false, c.2, [])
  else
    let r := get_or_create_current c.2 uid now
    let usage := { r.1 with descriptions_generated := r.1.descriptions_generated + 1 }
    let st3 := saveUsage r.2 usage
    let notifs :=
      if emailEnabled then
        match lookupSub st3.subs uid with
        | none => []
        | some subscription =>
          if quotaWarningCondition usage.descriptions_generated
              subscription.plan.description_quota then
            [if emailOk then Notif.quotaWarningSent uid else Notif.quotaWarningFailed uid]
          else []
      else []
    (true, st3, notifs)

/-- N consume calls in sequence; the boolean is true iff every call
succeeded. -/
def consumeN (uid : Nat) (now : DT) (emailEnabled emailOk : Bool) :
    Nat → DBState → DBState × Bool
  | 0, st => (st, true)
  | n + 1, st =>
    let s := consumeN uid now emailEnabled emailOk n st
    let r := increment_usage s.1 uid now emailEnabled emailOk
    (r.2.1, s.2 && r.1)

/-- SubscriptionService._map_stripe_status (services.py lines 206-218);
`none` models a missing 'status' key, anything unmapped falls to CANCELED. -/
def map_stripe_status (s : Option String) : Status :=
  match s with
  | some "active" => .ACTIVE
  | some "trialing" => .TRIALING
  | some "past_due" => .PAST_DUE
  | some "canceled" => .CANCELED
  | some "unpaid" => .UNPAID
  | _ => .CANCELED

/-- Payload of a customer.subscription.updated event, as read by
handle_subscription_updated: the period timestamps are integer epoch
seconds; `canceled_at = some 0` is falsy in Python, modelled below. -/
structure SubUpdatedEvent where
  id : String
  status : Option String
  current_period_start : Int
  current_period_end : Int
  cancel_at_period_end : Bool
  canceled_at : Option Int
deriving DecidableEq

/-- The field updates performed by handle_subscription_updated (services.py
lines 97-113): overwrite status, period bounds and cancel_at_period_end;
overwrite canceled_at only when the payload carries a truthy value. -/
def updatedSubscription (sub : UserSubscription) (ev : SubUpdatedEvent) : UserSubscription :=
  { sub with
    status := map_stripe_status ev.status,
    current_period_start := some (fromtimestamp ev.current_period_start),
    current_period_end := some (fromtimestamp ev.current_period_end),
    cancel_at_period_end := ev.cancel_at_period_end,
    canceled_at :=
      match ev.canceled_at with
      | some ts => if ts = 0 then sub.canceled_at else some (fromtimestamp ts)
      | none => sub.canceled_at }

/-- SubscriptionService.handle_subscription_updated (services.py lines
86-121): apply the field updates and save; unknown subscription id is a
no-op. -/
def handle_subscription_updated (st : DBState) (ev : SubUpdatedEvent) : DBState :=
  match findSubByStripeId st ev.id with
  | none => st
  | some p => saveSub st p.1 (updatedSubscription p.2 ev)

/-- SubscriptionService.handle_subscription_deleted (services.py lines
123-147): force CANCELED, set canceled_at to now, save, then attempt the
cancellation email inside try/except. -/
def handle_subscription_deleted (st : DBState) (sid : String) (now : DT)
    (emailEnabled emailOk : Bool) : DBState × List Notif :=
  match findSubByStripeId st sid with
  | none => (st, [])
  | some p =>
    let subscription := { p.2 with status := Status.CANCELED, canceled_at := some now }
    let st' := saveSub st p.1 subscription
    let notifs :=
      if emailEnabled then
        [if emailOk then Notif.cancellationSent p.1 else Notif.cancellationFailed p.1]
      else []
    (st', notifs)

/-- SubscriptionService.handle_payment_failed (services.py lines 149-175):
a falsy subscription id is a no-op; otherwise set PAST_DUE, save, then
attempt the payment-failed email inside try/except. -/
def handle_payment_failed (st : DBState) (subId : Option String)
    (emailEnabled emailOk : Bool) : DBState × List Notif :=
  match subId with
  | none => (st, [])
  | some sid =>
    if sid = "" then (st, [])
    else
      match findSubByStripeId st sid with
      | none => (st, [])
      | some p =>
        let subscription := { p.2 with status := Status.PAST_DUE }
        let st' := saveSub st p.1 subscription
        let notifs :=
          if emailEnabled then
            [if emailOk then Notif.paymentFailedSent p.1 else Notif.paymentFailedFailed p.1]
          else []
        (st', notifs)

/-- SubscriptionService.handle_payment_succeeded (services.py lines
177-204): a falsy subscription id is a no-op; otherwise transition
PAST_DUE/UNPAID to ACTIVE and ensure a current usage row exists. -/
def handle_payment_succeeded (st : DBState) (subId : Option String) (now : DT) : DBState :=
  match subId with
  | none => st
  | some sid =>
    if sid = "" then st
    else
      match findSubByStripeId st sid with
      | none => st
      | some p =>
        let st1 :=
          if p.2.status = Status.PAST_DUE ∨ p.2.status = Status.UNPAID then
            saveSub st p.1 { p.2 with status := Status.ACTIVE }
          else st
        (get_or_create_current st1 p.1 now).2

/-! ### Definitions written from the spec's words (for refinement claims) -/

/-- Spec 4.1, first half, stated from the spec's words: the first instant
of the UTC calendar month containing `now` (day 1, 00:00:00.000). -/
def specMonthFirstInstant (now : DT) : DT :=
  { year := now.year, month := now.month, day := 1, hour := 0, minute := 0,
    second := 0, microsecond := 0 }

/-- Spec 4.1, second half, stated from the spec's words: the first instant
of the month following the month of `now`; after December the following
month is January of the next year. -/
def specFollowingMonthFirstInstant (now : DT) : DT :=
  if now.month = 12 then
    { year := now.year + 1, month := 1, day := 1, hour := 0, minute := 0,
      second := 0, microsecond := 0 }
  else
    { year := now.year, month := now.month + 1, day := 1, hour := 0, minute := 0,
      second := 0, microsecond := 0 }

/-! ### Concrete fixtures for the closed scenarios and witnesses -/

/-- A mid-month instant (2025-03-10 12:00 UTC). -/
def tMid : DT := ⟨2025, 3, 10, 12, 0, 0, 0⟩

/-- An earlier instant used as a pre-set cancellation time. -/
def tOld : DT := ⟨2025, 1, 5, 0, 0, 0, 0⟩

/-- A finite plan with quota 5. -/
def exPlan5 : SubscriptionPlan :=
  { name := "Starter", description_quota := 5, is_active := true }

/-- An ACTIVE subscription to the quota-5 plan. -/
def exSub5 : UserSubscription :=
  { plan := exPlan5, stripe_subscription_id := "sub_1", stripe_customer_id := "cus_1",
    status := .ACTIVE, current_period_start := none, current_period_end := none,
    trial_end := none, cancel_at_period_end := false, canceled_at := none }

/-- A current-period usage row for user 1 with `n` descriptions generated. -/
def exUsage (n : Int) : Usage :=
  { id := 0, user := 1, descriptions_generated := n,
    period_start := (currentPeriod tMid).1, period_end := (currentPeriod tMid).2 }

/-- A database with user 1 subscribed to the quota-5 plan and `n`
descriptions generated this period. -/
def exState (n : Int) : DBState :=
  { subs := [(1, exSub5)], usages := [exUsage n], nextId := 1 }

/-- The exState subscription with `canceled_at` already set to `tOld`. -/
def exSubCA : UserSubscription := { exSub5 with canceled_at := some tOld }

/-- A database whose subscription already has a non-null `canceled_at`. -/
def exStateCA : DBState := { subs := [(1, exSubCA)], usages := [], nextId := 0 }

/-! ### Helper lemmas about the association-list database operations -/

lemma find?_congr {α : Type} (l : List α) (p q : α → Bool)
    (h : ∀ a ∈ l, p a = q a) : l.find? p = l.find? q := by
  induction l with
  | nil => rfl
  | cons a t ih =>
    have ha := h a (by simp)
    by_cases hp : p a = true
    · rw [List.find?_cons_of_pos t hp, List.find?_cons_of_pos t (ha ▸ hp)]
    · rw [List.find?_cons_of_neg t hp, List.find?_cons_of_neg t (ha ▸ hp)]
      exact ih fun a ha' => h a (by simp [ha'])

lemma lookup_save (l : List (Nat × UserSubscription)) (uid : Nat) (s : UserSubscription) :
    lookupSub (l.map (fun p => if p.1 == uid then (p.1, s) else p)) uid =
      (lookupSub l uid).map (fun _ => s) := by
  simp only [lookupSub]
  induction l with
  | nil => rfl
  | cons a t ih =>
    rw [List.map_cons]
    by_cases h : a.1 = uid
    · rw [if_pos (show (a.1 == uid) = true by simpa using h)]
      rw [@List.find?_cons_of_pos _ (fun p => p.1 == uid) (a.1, s) _ (by simpa using h)]
      rw [@List.find?_cons_of_pos _ (fun p => p.1 == uid) a _ (by simpa using h)]
      rfl
    · rw [if_neg (show ¬ (a.1 == uid) = true by simpa using h)]
      rw [@List.find?_cons_of_neg _ (fun p => p.1 == uid) a _ (by simpa using h)]
      rw [@List.find?_cons_of_neg _ (fun p => p.1 == uid) a _ (by simpa using h)]
      exact ih

lemma findStripe_lookup (l : List (Nat × UserSubscription)) (sid : String)
    (uid : Nat) (sub : UserSubscription)
    (hnd : (l.map Prod.fst).Nodup)
    (h : l.find? (fun p => p.2.stripe_subscription_id == sid) = some (uid, sub)) :
    lookupSub l uid = some sub := by
  induction l with
  | nil => simp at h
  | cons a t ih =>
    rw [List.map_cons, List.nodup_cons] at hnd
    by_cases hp : a.2.stripe_subscription_id = sid
    · rw [@List.find?_cons_of_pos _ (fun p => p.2.stripe_subscription_id == sid) a t (by simpa using hp)] at h
      injection h with h'
      simp only [lookupSub]
      rw [h']
      rw [@List.find?_cons_of_pos _ (fun p => p.1 == uid) (uid, sub) t (by simp)]
      rfl
    · rw [@List.find?_cons_of_neg _ (fun p => p.2.stripe_subscription_id == sid) a t (by simpa using hp)] at h
      have hmem : (uid, sub) ∈ t := List.mem_of_find?_eq_some h
      have ha : a.1 ≠ uid := by
        intro hxy
        exact hnd.1 (hxy ▸ List.mem_map_of_mem Prod.fst hmem)
      simp only [lookupSub]
      rw [@List.find?_cons_of_neg _ (fun p => p.1 == uid) a t (by simpa using ha)]
      exact ih hnd.2 h

lemma findStripe_save (l : List (Nat × UserSubscription)) (sid : String)
    (uid : Nat) (sub s : UserSubscription)
    (h : l.find? (fun p => p.2.stripe_subscription_id == sid) = some (uid, sub))
    (hs : s.stripe_subscription_id = sid) :
    (l.map (fun p => if p.1 == uid then (p.1, s) else p)).find?
        (fun p => p.2.stripe_subscription_id == sid) = some (uid, s) := by
  induction l with
  | nil => simp at h
  | cons a t ih =>
    rw [List.map_cons]
    by_cases hp : a.2.stripe_subscription_id = sid
    · rw [@List.find?_cons_of_pos _ (fun p => p.2.stripe_subscription_id == sid) a t (by simpa using hp)] at h
      injection h with h'
      rw [h']
      rw [if_pos (show ((((uid, sub)) : Nat × UserSubscription).1 == uid) = true by simp)]
      rw [@List.find?_cons_of_pos _ (fun p => p.2.stripe_subscription_id == sid) (uid, s) _ (by simpa using hs)]
    · rw [@List.find?_cons_of_neg _ (fun p => p.2.stripe_subscription_id == sid) a t (by simpa using hp)] at h
      by_cases ha : a.1 = uid
      · rw [if_pos (show (a.1 == uid) = true by simpa using ha)]
        rw [@List.find?_cons_of_pos _ (fun p => p.2.stripe_subscription_id == sid) (a.1, s) _ (by simpa using hs)]
        rw [ha]
      · rw [if_neg (show ¬ (a.1 == uid) = true by simpa using ha)]
        rw [@List.find?_cons_of_neg _ (fun p => p.2.stripe_subscription_id == sid) a _ (by simpa using hp)]
        exact ih h

lemma save_save (l : List (Nat × UserSubscription)) (uid : Nat) (s s' : UserSubscription) :
    (l.map (fun p => if p.1 == uid then (p.1, s) else p)).map
        (fun p => if p.1 == uid then (p.1, s') else p) =
      l.map (fun p => if p.1 == uid then (p.1, s') else p) := by
  rw [List.map_map]
  apply List.map_congr_left
  intro a _
  by_cases h : a.1 = uid <;> simp [Function.comp, h]

/-! ### Helper lemmas about usage rows -/

lemma ids_replace (l : List Usage) (u : Usage) :
    (l.map (fun v => if v.id == u.id then u else v)).map Usage.id = l.map Usage.id := by
  rw [List.map_map]
  apply List.map_congr_left
  intro v _
  by_cases h : v.id = u.id <;> simp [Function.comp, h]

lemma find_replace (l : List Usage) (P : Usage → Bool) (r u : Usage)
    (hnd : (l.map Usage.id).Nodup)
    (h : l.find? P = some r) (hid : u.id = r.id) (hu : P u = true) :
    (l.map (fun v => if v.id == u.id then u else v)).find? P = some u := by
  induction l with
  | nil => simp at h
  | cons a t ih =>
    rw [List.map_cons, List.nodup_cons] at hnd
    rw [List.map_cons]
    by_cases hp : P a = true
    · rw [List.find?_cons_of_pos t hp] at h
      injection h with h'
      rw [if_pos (show (a.id == u.id) = true by simp [h', hid])]
      rw [List.find?_cons_of_pos _ hu]
    · rw [List.find?_cons_of_neg t hp] at h
      have hmem : r ∈ t := List.mem_of_find?_eq_some h
      have ha : ¬ a.id = u.id := by
        rw [hid]
        intro hxy
        exact hnd.1 (hxy ▸ List.mem_map_of_mem Usage.id hmem)
      rw [if_neg (show ¬ (a.id == u.id) = true by simpa using ha)]
      rw [List.find?_cons_of_neg _ hp]
      exact ih hnd.2 h

lemma replace_self (l : List Usage) (r : Usage)
    (hnd : (l.map Usage.id).Nodup) (hr : r ∈ l) :
    l.map (fun v => if v.id == r.id then r else v) = l := by
  have hcg : ∀ v ∈ l, (if v.id == r.id then r else v) = id v := by
    intro v hv
    by_cases h : v.id = r.id
    · have : v = r := List.inj_on_of_nodup_map hnd hv hr h
      simp [this]
    · simp [h]
  rw [List.map_congr_left hcg, List.map_id]

lemma mem_replace_of_ne (l : List Usage) (u v : Usage)
    (hv : v ∈ l) (hne : v.id ≠ u.id) :
    v ∈ l.map (fun w => if w.id == u.id then u else w) := by
  have heq : (if v.id == u.id then u else v) = v := by simp [hne]
  exact heq ▸ List.mem_map_of_mem _ hv

lemma replace_replace (l : List Usage) (u u' : Usage) (h : u'.id = u.id) :
    (l.map (fun v => if v.id == u.id then u else v)).map
        (fun v => if v.id == u'.id then u' else v) =
      l.map (fun v => if v.id == u'.id then u' else v) := by
  rw [List.map_map]
  apply List.map_congr_left
  intro v _
  by_cases hv : v.id = u.id <;> simp [Function.comp, hv, h]

/-! ### Step lemmas for the service operations -/

lemma goc_subs (st : DBState) (uid : Nat) (now : DT) :
    (get_or_create_current st uid now).2.subs = st.subs := by
  unfold get_or_create_current
  cases findCurrent st.usages uid now <;> rfl

lemma goc_found (st : DBState) (uid : Nat) (now : DT) (r : Usage)
    (h : findCurrent st.usages uid now = some r) :
    get_or_create_current st uid now = (r, st) := by
  unfold get_or_create_current
  rw [h]

lemma goc_none (st : DBState) (uid : Nat) (now : DT)
    (h : findCurrent st.usages uid now = none) :
    get_or_create_current st uid now =
      ({ id := st.nextId, user := uid, descriptions_generated := 0,
         period_start := (currentPeriod now).1, period_end := (currentPeriod now).2 },
       { st with
         usages := st.usages ++
           [{ id := st.nextId, user := uid, descriptions_generated := 0,
              period_start := (currentPeriod now).1, period_end := (currentPeriod now).2 }],
         nextId := st.nextId + 1 }) := by
  unfold get_or_create_current
  rw [h]

lemma findCurrent_append (l : List Usage) (u : Usage) (uid : Nat) (now : DT)
    (h : l.find? (isCurrentFor uid now) = none) (hu : isCurrentFor uid now u = true) :
    (l ++ [u]).find? (isCurrentFor uid now) = some u := by
  rw [List.find?_append, h]
  simp [List.find?, hu]

lemma check_none (st : DBState) (uid : Nat) (now : DT)
    (h : lookupSub st.subs uid = none) :
    check_usage_quota st uid now = ((false, .finite 0), st) := by
  simp only [check_usage_quota, h]

lemma check_inactive (st : DBState) (uid : Nat) (now : DT) (sub : UserSubscription)
    (hsub : lookupSub st.subs uid = some sub)
    (hin : sub.status ≠ .ACTIVE ∧ sub.status ≠ .TRIALING) :
    check_usage_quota st uid now = ((false, .finite 0), st) := by
  simp only [check_usage_quota, hsub]
  rw [if_pos hin]

lemma check_found (st : DBState) (uid : Nat) (now : DT) (sub : UserSubscription) (r : Usage)
    (hsub : lookupSub st.subs uid = some sub)
    (hact : sub.status = .ACTIVE ∨ sub.status = .TRIALING)
    (hfin : sub.plan.description_quota ≠ -1)
    (hr : findCurrent st.usages uid now = some r) :
    check_usage_quota st uid now =
      ((decide (sub.plan.description_quota - r.descriptions_generated > 0),
        .finite (sub.plan.description_quota - r.descriptions_generated)), st) := by
  have hst : ¬ (sub.status ≠ Status.ACTIVE ∧ sub.status ≠ Status.TRIALING) := by
    rcases hact with h | h <;> simp [h]
  simp only [check_usage_quota, hsub]
  rw [if_neg hst, goc_found st uid now r hr, if_neg hfin]

lemma check_found_unlimited (st : DBState) (uid : Nat) (now : DT) (sub : UserSubscription)
    (hsub : lookupSub st.subs uid = some sub)
    (hact : sub.status = .ACTIVE ∨ sub.status = .TRIALING)
    (hq : sub.plan.description_quota = -1) :
    check_usage_quota st uid now = ((true, .unlimited), (get_or_create_current st uid now).2) := by
  have hst : ¬ (sub.status ≠ Status.ACTIVE ∧ sub.status ≠ Status.TRIALING) := by
    rcases hact with h | h <;> simp [h]
  simp only [check_usage_quota, hsub]
  rw [if_neg hst, if_pos hq]

lemma quotaWarning_unlimited (n : Int) : quotaWarningCondition n (-1) = false := by
  simp [quotaWarningCondition]

lemma saveUsage_subs (st : DBState) (u : Usage) : (saveUsage st u).subs = st.subs := rfl

lemma findCurrent_saveUsage (st : DBState) (uid : Nat) (now : DT) (r u : Usage)
    (hnd : (st.usages.map Usage.id).Nodup)
    (h : findCurrent st.usages uid now = some r) (hid : u.id = r.id)
    (hu : isCurrentFor uid now u = true) :
    findCurrent (saveUsage st u).usages uid now = some u :=
  find_replace st.usages _ r u hnd h hid hu

lemma saveUsage_saveUsage (st : DBState) (u u' : Usage) (h : u'.id = u.id) :
    saveUsage (saveUsage st u) u' = saveUsage st u' := by
  unfold saveUsage
  rw [replace_replace st.usages u u' h]

lemma increment_found (st : DBState) (uid : Nat) (now : DT) (e ok : Bool)
    (sub : UserSubscription) (r : Usage)
    (hsub : lookupSub st.subs uid = some sub)
    (hact : sub.status = .ACTIVE ∨ sub.status = .TRIALING)
    (hfin : sub.plan.description_quota ≠ -1)
    (hr : findCurrent st.usages uid now = some r)
    (hlt : r.descriptions_generated < sub.plan.description_quota) :
    increment_usage st uid now e ok =
      (true,
       saveUsage st { r with descriptions_generated := r.descriptions_generated + 1 },
       if e && quotaWarningCondition (r.descriptions_generated + 1) sub.plan.description_quota
       then [if ok then Notif.quotaWarningSent uid else Notif.quotaWarningFailed uid]
       else []) := by
  have hc := check_found st uid now sub r hsub hact hfin hr
  have hgt : decide (sub.plan.description_quota - r.descriptions_generated > 0) = true := by
    simp only [decide_eq_true_eq]
    omega
  simp only [increment_usage, hc, hgt, Bool.not_true, Bool.false_eq_true, if_false,
    goc_found st uid now r hr, saveUsage_subs, hsub]
  cases e <;>
    cases hw : quotaWarningCondition (r.descriptions_generated + 1) sub.plan.description_quota <;>
      simp [hw]

lemma increment_found_fail (st : DBState) (uid : Nat) (now : DT) (e ok : Bool)
    (sub : UserSubscription) (r : Usage)
    (hsub : lookupSub st.subs uid = some sub)
    (hact : sub.status = .ACTIVE ∨ sub.status = .TRIALING)
    (hfin : sub.plan.description_quota ≠ -1)
    (hr : findCurrent st.usages uid now = some r)
    (hge : sub.plan.description_quota ≤ r.descriptions_generated) :
    increment_usage st uid now e ok = (false, st, []) := by
  have hc := check_found st uid now sub r hsub hact hfin hr
  have hgt : decide (sub.plan.description_quota - r.descriptions_generated > 0) = false := by
    simp only [decide_eq_false_iff_not]
    omega
  simp only [increment_usage, hc, hgt, Bool.not_false, if_true]

lemma increment_found_unlimited (st : DBState) (uid : Nat) (now : DT) (e ok : Bool)
    (sub : UserSubscription) (r : Usage)
    (hsub : lookupSub st.subs uid = some sub)
    (hact : sub.status = .ACTIVE ∨ sub.status = .TRIALING)
    (hq : sub.plan.description_quota = -1)
    (hr : findCurrent st.usages uid now = some r) :
    increment_usage st uid now e ok =
      (true, saveUsage st { r with descriptions_generated := r.descriptions_generated + 1 }, []) := by
  have hc := check_found_unlimited st uid now sub hsub hact hq
  simp only [increment_usage, hc, goc_found st uid now r hr, Bool.not_true,
    Bool.false_eq_true, if_false, saveUsage_subs, hsub, hq, quotaWarning_unlimited]
  cases e <;> simp

lemma consumeN_state (st : DBState) (uid : Nat) (now : DT) (e ok : Bool)
    (sub : UserSubscription) (r0 : Usage) (Q : Nat)
    (hsub : lookupSub st.subs uid = some sub)
    (hact : sub.status = .ACTIVE ∨ sub.status = .TRIALING)
    (hq : sub.plan.description_quota = (Q : Int))
    (hr : findCurrent st.usages uid now = some r0)
    (h0 : r0.descriptions_generated = 0)
    (hnd : (st.usages.map Usage.id).Nodup) :
    ∀ k : Nat, k ≤ Q →
      consumeN uid now e ok k st =
        (saveUsage st { r0 with descriptions_generated := (k : Int) }, true) := by
  intro k
  induction k with
  | zero =>
    intro _
    have hr0 : ({ r0 with descriptions_generated := ((0 : Nat) : Int) } : Usage) = r0 := by
      have : ((0 : Nat) : Int) = r0.descriptions_generated := by simp [h0]
      rw [this]
    rw [hr0]
    have hself : saveUsage st r0 = st := by
      unfold saveUsage
      rw [replace_self st.usages r0 hnd (List.mem_of_find?_eq_some hr)]
    rw [hself]
    rfl
  | succ k ih =>
    intro hk1
    have hk : k ≤ Q := Nat.le_of_succ_le hk1
    have hkQ : k < Q := hk1
    have hrk : findCurrent (saveUsage st { r0 with descriptions_generated := (k : Int) }).usages uid now
        = some { r0 with descriptions_generated := (k : Int) } :=
      findCurrent_saveUsage st uid now r0 { r0 with descriptions_generated := (k : Int) }
        hnd hr rfl (by have h1 : isCurrentFor uid now r0 = true := List.find?_some hr; exact h1)
    have hfin : sub.plan.description_quota ≠ -1 := by rw [hq]; omega
    have hlt : ({ r0 with descriptions_generated := (k : Int) } : Usage).descriptions_generated
        < sub.plan.description_quota := by
      show (k : Int) < sub.plan.description_quota
      rw [hq]
      exact_mod_cast hkQ
    have hstep := increment_found (saveUsage st { r0 with descriptions_generated := (k : Int) })
      uid now e ok sub { r0 with descriptions_generated := (k : Int) }
      (by rw [saveUsage_subs]; exact hsub) hact hfin hrk hlt
    show (let s := consumeN uid now e ok k st
          let r := increment_usage s.1 uid now e ok
          (r.2.1, s.2 && r.1)) = _
    rw [ih hk]
    simp only [hstep]
    have hcol : saveUsage (saveUsage st { r0 with descriptions_generated := (k : Int) })
        { r0 with descriptions_generated := (k : Int) + 1 } =
        saveUsage st { r0 with descriptions_generated := (k : Int) + 1 } :=
      saveUsage_saveUsage st { r0 with descriptions_generated := (k : Int) }
        { r0 with descriptions_generated := (k : Int) + 1 } rfl
    have hcast : ((k + 1 : Nat) : Int) = (k : Int) + 1 := by push_cast; ring
    show (saveUsage (saveUsage st { r0 with descriptions_generated := (k : Int) })
            { r0 with descriptions_generated := (k : Int) + 1 }, true && true) =
         (saveUsage st { r0 with descriptions_generated := ((k + 1 : Nat) : Int) }, true)
    rw [hcol, hcast]
    rfl

lemma saveSub_usages (st : DBState) (uid : Nat) (s : UserSubscription) :
    (saveSub st uid s).usages = st.usages := rfl

lemma saveSub_saveSub (st : DBState) (uid : Nat) (s s' : UserSubscription) :
    saveSub (saveSub st uid s) uid s' = saveSub st uid s' := by
  unfold saveSub
  rw [save_save st.subs uid s s']

lemma check_create_finite (st : DBState) (uid : Nat) (now : DT) (sub : UserSubscription)
    (hsub : lookupSub st.subs uid = some sub)
    (hact : sub.status = .ACTIVE ∨ sub.status = .TRIALING)
    (hfin : sub.plan.description_quota ≠ -1)
    (hfc : findCurrent st.usages uid now = none) :
    check_usage_quota st uid now =
      ((decide (sub.plan.description_quota > 0), .finite sub.plan.description_quota),
       { st with
         usages := st.usages ++
           [{ id := st.nextId, user := uid, descriptions_generated := 0,
              period_start := (currentPeriod now).1, period_end := (currentPeriod now).2 }],
         nextId := st.nextId + 1 }) := by
  have hst : ¬ (sub.status ≠ Status.ACTIVE ∧ sub.status ≠ Status.TRIALING) := by
    rcases hact with h | h <;> simp [h]
  simp only [check_usage_quota, hsub]
  rw [if_neg hst, goc_none st uid now hfc, if_neg hfin]
  simp

lemma saveUsage_fresh_append (st : DBState) (u0 u1 : Usage)
    (hfresh : ∀ v ∈ st.usages, v.id ≠ u0.id) (hid : u1.id = u0.id) :
    saveUsage { st with usages := st.usages ++ [u0], nextId := st.nextId + 1 } u1 =
      { st with usages := st.usages ++ [u1], nextId := st.nextId + 1 } := by
  unfold saveUsage
  congr 1
  rw [List.map_append]
  have h1 : st.usages.map (fun v => if v.id == u1.id then u1 else v) = st.usages := by
    have hcg : ∀ v ∈ st.usages, (if v.id == u1.id then u1 else v) = id v := by
      intro v hv
      have : v.id ≠ u1.id := by rw [hid]; exact hfresh v hv
      simp [this]
    rw [List.map_congr_left hcg, List.map_id]
  rw [h1]
  have h2 : [u0].map (fun v => if v.id == u1.id then u1 else v) = [u1] := by
    simp [hid]
  rw [h2]

lemma increment_create_finite (st : DBState) (uid : Nat) (now : DT) (e ok : Bool)
    (sub : UserSubscription)
    (hsub : lookupSub st.subs uid = some sub)
    (hact : sub.status = .ACTIVE ∨ sub.status = .TRIALING)
    (hfin : sub.plan.description_quota ≠ -1)
    (hpos : 0 < sub.plan.description_quota)
    (hfc : findCurrent st.usages uid now = none)
    (hfresh : ∀ v ∈ st.usages, v.id ≠ st.nextId)
    (hnow1 : DT.ble (currentPeriod now).1 now = true)
    (hnow2 : DT.ble now (currentPeriod now).2 = true) :
    increment_usage st uid now e ok =
      (true,
       { st with
         usages := st.usages ++
           [{ id := st.nextId, user := uid, descriptions_generated := 0 + 1,
              period_start := (currentPeriod now).1, period_end := (currentPeriod now).2 }],
         nextId := st.nextId + 1 },
       if e && quotaWarningCondition (0 + 1) sub.plan.description_quota
       then [if ok then Notif.quotaWarningSent uid else Notif.quotaWarningFailed uid]
       else []) := by
  have hc := check_create_finite st uid now sub hsub hact hfin hfc
  have hgt : decide (sub.plan.description_quota > 0) = true := by
    simp only [decide_eq_true_eq]
    omega
  rw [hgt] at hc
  have hu0cur : isCurrentFor uid now
      { id := st.nextId, user := uid, descriptions_generated := 0,
        period_start := (currentPeriod now).1, period_end := (currentPeriod now).2 } = true := by
    simp [isCurrentFor, hnow1, hnow2]
  have hfc1 : findCurrent
      ({ st with
         usages := st.usages ++
           [{ id := st.nextId, user := uid, descriptions_generated := 0,
              period_start := (currentPeriod now).1, period_end := (currentPeriod now).2 }],
         nextId := st.nextId + 1 } : DBState).usages uid now =
      some { id := st.nextId, user := uid, descriptions_generated := 0,
             period_start := (currentPeriod now).1, period_end := (currentPeriod now).2 } :=
    findCurrent_append st.usages _ uid now hfc hu0cur
  have hsave := saveUsage_fresh_append st
    { id := st.nextId, user := uid, descriptions_generated := 0,
      period_start := (currentPeriod now).1, period_end := (currentPeriod now).2 }
    { id := st.nextId, user := uid, descriptions_generated := 0 + 1,
      period_start := (currentPeriod now).1, period_end := (currentPeriod now).2 }
    hfresh rfl
  simp only [increment_usage, hc, Bool.not_true, Bool.false_eq_true, if_false,
    goc_found _ uid now _ hfc1, hsave, hsub]
  cases e <;>
    cases hw : quotaWarningCondition (0 + 1) sub.plan.description_quota <;>
      simp [hw]

lemma check_create_unlimited (st : DBState) (uid : Nat) (now : DT) (sub : UserSubscription)
    (hsub : lookupSub st.subs uid = some sub)
    (hact : sub.status = .ACTIVE ∨ sub.status = .TRIALING)
    (hq : sub.plan.description_quota = -1)
    (hfc : findCurrent st.usages uid now = none) :
    check_usage_quota st uid now =
      ((true, .unlimited),
       { st with
         usages := st.usages ++
           [{ id := st.nextId, user := uid, descriptions_generated := 0,
              period_start := (currentPeriod now).1, period_end := (currentPeriod now).2 }],
         nextId := st.nextId + 1 }) := by
  have hst : ¬ (sub.status ≠ Status.ACTIVE ∧ sub.status ≠ Status.TRIALING) := by
    rcases hact with h | h <;> simp [h]
  simp only [check_usage_quota, hsub]
  rw [if_neg hst, goc_none st uid now hfc, if_pos hq]

lemma increment_create_unlimited (st : DBState) (uid : Nat) (now : DT) (e ok : Bool)
    (sub : UserSubscription)
    (hsub : lookupSub st.subs uid = some sub)
    (hact : sub.status = .ACTIVE ∨ sub.status = .TRIALING)
    (hq : sub.plan.description_quota = -1)
    (hfc : findCurrent st.usages uid now = none)
    (hfresh : ∀ v ∈ st.usages, v.id ≠ st.nextId)
    (hnow1 : DT.ble (currentPeriod now).1 now = true)
    (hnow2 : DT.ble now (currentPeriod now).2 = true) :
    increment_usage st uid now e ok =
      (true,
       { st with
         usages := st.usages ++
           [{ id := st.nextId, user := uid, descriptions_generated := 0 + 1,
              period_start := (currentPeriod now).1, period_end := (currentPeriod now).2 }],
         nextId := st.nextId + 1 },
       []) := by
  have hc := check_create_unlimited st uid now sub hsub hact hq hfc
  have hu0cur : isCurrentFor uid now
      { id := st.nextId, user := uid, descriptions_generated := 0,
        period_start := (currentPeriod now).1, period_end := (currentPeriod now).2 } = true := by
    simp [isCurrentFor, hnow1, hnow2]
  have hfc1 : findCurrent
      ({ st with
         usages := st.usages ++
           [{ id := st.nextId, user := uid, descriptions_generated := 0,
              period_start := (currentPeriod now).1, period_end := (currentPeriod now).2 }],
         nextId := st.nextId + 1 } : DBState).usages uid now =
      some { id := st.nextId, user := uid, descriptions_generated := 0,
             period_start := (currentPeriod now).1, period_end := (currentPeriod now).2 } :=
    findCurrent_append st.usages _ uid now hfc hu0cur
  have hsave := saveUsage_fresh_append st
    { id := st.nextId, user := uid, descriptions_generated := 0,
      period_start := (currentPeriod now).1, period_end := (currentPeriod now).2 }
    { id := st.nextId, user := uid, descriptions_generated := 0 + 1,
      period_start := (currentPeriod now).1, period_end := (currentPeriod now).2 }
    hfresh rfl
  simp only [increment_usage, hc, Bool.not_true, Bool.false_eq_true, if_false,
    goc_found _ uid now _ hfc1, hsave, hsub, hq, quotaWarning_unlimited]
  cases e <;> simp

lemma handle_updated_none (st : DBState) (ev : SubUpdatedEvent)
    (hfind : findSubByStripeId st ev.id = none) :
    handle_subscription_updated st ev = st := by
  simp only [handle_subscription_updated, hfind]

lemma handle_updated_found (st : DBState) (ev : SubUpdatedEvent)
    (uid : Nat) (sub : UserSubscription)
    (hfind : findSubByStripeId st ev.id = some (uid, sub)) :
    handle_subscription_updated st ev = saveSub st uid (updatedSubscription sub ev) := by
  simp only [handle_subscription_updated, hfind]

lemma updatedSubscription_idem (sub : UserSubscription) (ev : SubUpdatedEvent) :
    updatedSubscription (updatedSubscription sub ev) ev = updatedSubscription sub ev := by
  unfold updatedSubscription
  cases hca : ev.canceled_at with
  | none => rfl
  | some ts => by_cases hts : ts = 0 <;> simp [hts]

/-! ### Claim theorems -/

/-- C7: for every `now` (with a valid month number), the billing period
computed when creating a usage record has start equal to the first instant
of the UTC calendar month containing `now` (day 1, 00:00:00.000) and end
equal to the first instant of the following month minus one second — with
December wrapping to January of the next year — which lands on the last
second of the month of `now`.  `currentPeriod` is a plain function of
`now`, hence pure and deterministic. -/
theorem currentPeriod_matches_spec (now : DT)
    (h1 : 1 ≤ now.month) (h2 : now.month ≤ 12) :
    currentPeriod now =
      (specMonthFirstInstant now, subSecond (specFollowingMonthFirstInstant now)) ∧
    (currentPeriod now).2 =
      { year := now.year, month := now.month, day := daysInMonth now.year now.month,
        hour := 23, minute := 59, second := 59, microsecond := 0 } := by
  constructor
  · rfl
  · by_cases h12 : now.month = 12
    · simp only [currentPeriod, monthFloor, nextMonthStart, h12, if_pos, subSecond]
      simp [daysInMonth]
    · have hne1 : ¬ (now.month + 1 = 1) := by omega
      simp only [currentPeriod, monthFloor, nextMonthStart, if_neg h12, subSecond]
      simp [hne1, daysInMonth]

/-- Witness for C7, at a December instant: the period runs from
2025-12-01 00:00:00 to 2025-12-31 23:59:59. -/
theorem currentPeriod_matches_spec_witness :
    (1 ≤ (12 : Nat) ∧ (12 : Nat) ≤ 12) ∧
    currentPeriod ⟨2025, 12, 15, 9, 30, 0, 0⟩ =
      (⟨2025, 12, 1, 0, 0, 0, 0⟩, ⟨2025, 12, 31, 23, 59, 59, 0⟩) := by
  refine ⟨⟨by decide, by decide⟩, ?_⟩
  have h := currentPeriod_matches_spec ⟨2025, 12, 15, 9, 30, 0, 0⟩ (by decide) (by decide)
  rw [h.1]
  decide

/-- C5: applying the same SubscriptionUpdated event twice (an identical
payload handled twice) leaves the subscription state — status, period
bounds, cancel_at_period_end, canceled_at — identical to applying it
once: the handler is idempotent. -/
theorem subscription_updated_idempotent (st : DBState) (ev : SubUpdatedEvent) :
    handle_subscription_updated (handle_subscription_updated st ev) ev =
      handle_subscription_updated st ev := by
  cases hfind : findSubByStripeId st ev.id with
  | none =>
    have h0 := handle_updated_none st ev hfind
    rw [h0]
    exact h0
  | some p =>
    obtain ⟨uid, sub⟩ := p
    have hsid : sub.stripe_subscription_id = ev.id := by
      have hx := List.find?_some hfind
      simpa using hx
    have h1 := handle_updated_found st ev uid sub hfind
    have hfind2 : findSubByStripeId (saveSub st uid (updatedSubscription sub ev)) ev.id =
        some (uid, updatedSubscription sub ev) :=
      findStripe_save st.subs ev.id uid sub (updatedSubscription sub ev) hfind
        (by simpa [updatedSubscription] using hsid)
    have h2 := handle_updated_found (saveSub st uid (updatedSubscription sub ev)) ev uid
      (updatedSubscription sub ev) hfind2
    rw [h1, h2, updatedSubscription_idem, saveSub_saveSub]

/-- C2 counterexample: with a quota-5 plan and 6 descriptions already
generated in the current period, check_usage_quota returns remaining = -1,
not max(0, 5 - 6) = 0: the returned remaining is negative when usage
exceeds the quota, so the claimed clamping does not exist. -/
theorem check_usage_quota_negative_remaining :
    (check_usage_quota (exState 6) 1 tMid).1 = (false, .finite (-1)) ∧
    QuotaRemaining.finite (-1) ≠ QuotaRemaining.finite (max 0 (5 - 6)) := by
  decide

/-- C2 (amended): check_usage_quota returns (false, 0) when the user has
no Subscription or its status is outside {ACTIVE, TRIALING}; returns
(true, unlimited) on the -1 quota sentinel regardless of the usage count;
and otherwise returns remaining computed as plan quota minus the
current-period descriptions_generated WITHOUT clamping at 0 (it is
negative when usage already exceeds the quota), with allowed true iff
that difference is > 0. -/
theorem check_usage_quota_characterization (st : DBState) (uid : Nat) (now : DT) :
    (lookupSub st.subs uid = none →
      check_usage_quota st uid now = ((false, .finite 0), st)) ∧
    (∀ sub, lookupSub st.subs uid = some sub →
      (sub.status ≠ .ACTIVE ∧ sub.status ≠ .TRIALING) →
      check_usage_quota st uid now = ((false, .finite 0), st)) ∧
    (∀ sub, lookupSub st.subs uid = some sub →
      (sub.status = .ACTIVE ∨ sub.status = .TRIALING) →
      sub.plan.description_quota = -1 →
      (check_usage_quota st uid now).1 = (true, .unlimited)) ∧
    (∀ sub r, lookupSub st.subs uid = some sub →
      (sub.status = .ACTIVE ∨ sub.status = .TRIALING) →
      sub.plan.description_quota ≠ -1 →
      findCurrent st.usages uid now = some r →
      (check_usage_quota st uid now).1 =
        (decide (sub.plan.description_quota - r.descriptions_generated > 0),
         .finite (sub.plan.description_quota - r.descriptions_generated))) := by
  refine ⟨?_, ?_, ?_, ?_⟩
  · intro h
    exact check_none st uid now h
  · intro sub hsub hin
    exact check_inactive st uid now sub hsub hin
  · intro sub hsub hact hq
    rw [check_found_unlimited st uid now sub hsub hact hq]
  · intro sub r hsub hact hfin hr
    rw [check_found st uid now sub r hsub hact hfin hr]

/-- Witness for C2 (amended), at the over-quota fixture: quota 5,
usage 6, so the returned remaining is the unclamped value -1. -/
theorem check_usage_quota_characterization_witness :
    (check_usage_quota (exState 6) 1 tMid).1 = (false, .finite (-1)) := by
  have h := (check_usage_quota_characterization (exState 6) 1 tMid).2.2.2
    exSub5 (exUsage 6) (by decide) (Or.inl (by decide)) (by decide) (by decide)
  rw [h]
  decide

lemma lookupSub_saveSub (st : DBState) (uid : Nat) (s : UserSubscription) :
    lookupSub (saveSub st uid s).subs uid = (lookupSub st.subs uid).map (fun _ => s) :=
  lookup_save st.subs uid s

lemma goc_preserves (st : DBState) (uid : Nat) (now : DT)
    (hnow1 : DT.ble (currentPeriod now).1 now = true)
    (hnow2 : DT.ble now (currentPeriod now).2 = true) :
    (∃ r, findCurrent (get_or_create_current st uid now).2.usages uid now = some r) ∧
    (∀ v ∈ st.usages, v ∈ (get_or_create_current st uid now).2.usages) := by
  cases hfc : findCurrent st.usages uid now with
  | some r =>
    rw [goc_found st uid now r hfc]
    exact ⟨⟨r, hfc⟩, fun v hv => hv⟩
  | none =>
    rw [goc_none st uid now hfc]
    constructor
    · refine ⟨_, findCurrent_append st.usages _ uid now hfc ?_⟩
      simp [isCurrentFor, hnow1, hnow2]
    · intro v hv
      exact List.mem_append_left _ hv

/-- C4 counterexample: a subscription whose canceled_at is already set (to
tOld) has it overwritten with the processing time tMid by
handle_subscription_deleted, so "set only if not already set" is false. -/
theorem subscription_deleted_overwrites_canceled_at :
    (lookupSub (handle_subscription_deleted exStateCA "sub_1" tMid true true).1.subs 1).map
        (fun s => s.canceled_at) = some (some tMid) ∧
    some tMid ≠ some tOld := by
  decide

/-- C4 (amended): handling a SubscriptionDeleted event matching an
existing subscription forces status = CANCELED and unconditionally sets
canceled_at to the processing time (overwriting any previously-set value);
a cancellation notification is attempted (emails enabled); afterwards
canceled_at is non-null, and replaying the same deletion event leaves the
status CANCELED. -/
theorem subscription_deleted_spec (st : DBState) (sid : String) (uid : Nat)
    (sub : UserSubscription) (now now2 : DT) (ok ok2 : Bool)
    (hnd : (st.subs.map Prod.fst).Nodup)
    (hfind : findSubByStripeId st sid = some (uid, sub)) :
    lookupSub (handle_subscription_deleted st sid now true ok).1.subs uid =
      some { sub with status := Status.CANCELED, canceled_at := some now } ∧
    (handle_subscription_deleted st sid now true ok).2 ≠ [] ∧
    (lookupSub (handle_subscription_deleted
        (handle_subscription_deleted st sid now true ok).1 sid now2 true ok2).1.subs uid).map
      (fun s => s.status) = some Status.CANCELED := by
  have hsid : sub.stripe_subscription_id = sid := by
    simpa using List.find?_some hfind
  have h1 : handle_subscription_deleted st sid now true ok =
      (saveSub st uid { sub with status := Status.CANCELED, canceled_at := some now },
       [if ok then Notif.cancellationSent uid else Notif.cancellationFailed uid]) := by
    simp only [handle_subscription_deleted, hfind]
    rfl
  have hlook : lookupSub st.subs uid = some sub :=
    findStripe_lookup st.subs sid uid sub hnd hfind
  have hc1 : lookupSub (handle_subscription_deleted st sid now true ok).1.subs uid =
      some { sub with status := Status.CANCELED, canceled_at := some now } := by
    rw [h1]
    rw [lookupSub_saveSub, hlook]
    rfl
  refine ⟨hc1, ?_, ?_⟩
  · rw [h1]
    cases ok <;> simp
  · have hfind2 : findSubByStripeId
        (saveSub st uid { sub with status := Status.CANCELED, canceled_at := some now }) sid =
        some (uid, { sub with status := Status.CANCELED, canceled_at := some now }) :=
      findStripe_save st.subs sid uid sub _ hfind hsid
    have h2 : handle_subscription_deleted
        (saveSub st uid { sub with status := Status.CANCELED, canceled_at := some now })
        sid now2 true ok2 =
        (saveSub (saveSub st uid { sub with status := Status.CANCELED, canceled_at := some now })
          uid { sub with status := Status.CANCELED, canceled_at := some now2 },
         [if ok2 then Notif.cancellationSent uid else Notif.cancellationFailed uid]) := by
      simp only [handle_subscription_deleted, hfind2]
      rfl
    simp only [h1, h2]
    rw [lookupSub_saveSub, lookupSub_saveSub, hlook]
    rfl

/-- Witness for C4 (amended), on the fixture with canceled_at pre-set. -/
theorem subscription_deleted_spec_witness :
    lookupSub (handle_subscription_deleted exStateCA "sub_1" tMid true true).1.subs 1 =
      some { exSubCA with status := Status.CANCELED, canceled_at := some tMid } :=
  (subscription_deleted_spec exStateCA "sub_1" 1 exSubCA tMid tOld true true
    (by decide) (by decide)).1

/-- C3: handle_payment_succeeded on an event matching an existing
subscription turns PAST_DUE or UNPAID into ACTIVE, leaves any other status
unchanged (in particular ACTIVE stays ACTIVE and CANCELED is never turned
ACTIVE), ensures a current-period usage record exists afterwards, and
leaves every pre-existing usage record (any past period, any user) intact. -/
theorem payment_succeeded_spec (st : DBState) (sid : String) (uid : Nat)
    (sub : UserSubscription) (now : DT)
    (hnd : (st.subs.map Prod.fst).Nodup)
    (hsid : sid ≠ "")
    (hfind : findSubByStripeId st sid = some (uid, sub))
    (hnow1 : DT.ble (currentPeriod now).1 now = true)
    (hnow2 : DT.ble now (currentPeriod now).2 = true) :
    ((sub.status = .PAST_DUE ∨ sub.status = .UNPAID) →
      lookupSub (handle_payment_succeeded st (some sid) now).subs uid =
        some { sub with status := Status.ACTIVE }) ∧
    ((sub.status ≠ .PAST_DUE ∧ sub.status ≠ .UNPAID) →
      lookupSub (handle_payment_succeeded st (some sid) now).subs uid = some sub) ∧
    (∃ r, findCurrent (handle_payment_succeeded st (some sid) now).usages uid now = some r) ∧
    (∀ v ∈ st.usages, v ∈ (handle_payment_succeeded st (some sid) now).usages) := by
  have hlook : lookupSub st.subs uid = some sub :=
    findStripe_lookup st.subs sid uid sub hnd hfind
  have hred : handle_payment_succeeded st (some sid) now =
      (get_or_create_current
        (if sub.status = Status.PAST_DUE ∨ sub.status = Status.UNPAID then
          saveSub st uid { sub with status := Status.ACTIVE }
        else st) uid now).2 := by
    simp only [handle_payment_succeeded, hfind, if_neg hsid]
  rw [hred]
  by_cases hstat : sub.status = Status.PAST_DUE ∨ sub.status = Status.UNPAID
  · rw [if_pos hstat]
    have hpres := goc_preserves (saveSub st uid { sub with status := Status.ACTIVE })
      uid now hnow1 hnow2
    refine ⟨?_, ?_, hpres.1, hpres.2⟩
    · intro _
      rw [goc_subs, lookupSub_saveSub, hlook]
      rfl
    · intro hne
      rcases hstat with h | h
      · exact absurd h hne.1
      · exact absurd h hne.2
  · rw [if_neg hstat]
    have hpres := goc_preserves st uid now hnow1 hnow2
    refine ⟨?_, ?_, hpres.1, hpres.2⟩
    · intro h
      exact absurd h hstat
    · intro _
      rw [goc_subs]
      exact hlook

/-- Witness for C3: a PAST_DUE subscription is reactivated and a current
usage record exists afterwards. -/
theorem payment_succeeded_spec_witness :
    lookupSub (handle_payment_succeeded
        { subs := [(1, { exSub5 with status := Status.PAST_DUE })], usages := [], nextId := 0 }
        (some "sub_1") tMid).subs 1 =
      some { { exSub5 with status := Status.PAST_DUE } with status := Status.ACTIVE } :=
  (payment_succeeded_spec
    { subs := [(1, { exSub5 with status := Status.PAST_DUE })], usages := [], nextId := 0 }
    "sub_1" 1 { exSub5 with status := Status.PAST_DUE } tMid
    (by decide) (by decide) (by decide) (by decide) (by decide)).1 (Or.inl rfl)

/-- C6: within one billing period (two instants both contained in the
stored period computed at the first call, and agreeing on which stored
records contain them), calling get_or_create_current twice returns records
with identical identity and content, the second call changes nothing, and
exactly one current-period usage record exists afterwards, with
descriptions_generated initialized to 0 when the first call created it. -/
theorem get_or_create_current_idempotent (st : DBState) (uid : Nat) (t1 t2 : DT)
    (hiff : ∀ r ∈ st.usages, r.user = uid → isCurrentFor uid t1 r = isCurrentFor uid t2 r)
    (h2a : DT.ble (currentPeriod t1).1 t2 = true)
    (h2b : DT.ble t2 (currentPeriod t1).2 = true)
    (hcnt : st.usages.countP (isCurrentFor uid t1) ≤ 1) :
    (get_or_create_current (get_or_create_current st uid t1).2 uid t2).1 =
      (get_or_create_current st uid t1).1 ∧
    (get_or_create_current (get_or_create_current st uid t1).2 uid t2).2 =
      (get_or_create_current st uid t1).2 ∧
    (get_or_create_current st uid t1).2.usages.countP (isCurrentFor uid t2) = 1 ∧
    (findCurrent st.usages uid t1 = none →
      (get_or_create_current st uid t1).1.descriptions_generated = 0) := by
  have hall : ∀ r ∈ st.usages, isCurrentFor uid t1 r = isCurrentFor uid t2 r := by
    intro r hr
    by_cases hu : r.user = uid
    · exact hiff r hr hu
    · have hb : (r.user == uid) = false := by simpa using hu
      simp [isCurrentFor, hb]
  have hf : findCurrent st.usages uid t1 = findCurrent st.usages uid t2 :=
    find?_congr st.usages _ _ hall
  cases hfc : findCurrent st.usages uid t1 with
  | some r =>
    have hfc2 : findCurrent st.usages uid t2 = some r := by rw [← hf, hfc]
    rw [goc_found st uid t1 r hfc]
    rw [goc_found st uid t2 r hfc2]
    refine ⟨rfl, rfl, ?_, ?_⟩
    · have hcg : ∀ x ∈ st.usages,
          isCurrentFor uid t1 x = true ↔ isCurrentFor uid t2 x = true := by
        intro x hx
        rw [hall x hx]
      have hle : st.usages.countP (isCurrentFor uid t2) ≤ 1 := by
        rw [← List.countP_congr hcg]
        exact hcnt
      have hge : 0 < st.usages.countP (isCurrentFor uid t2) :=
        List.countP_pos_iff.mpr ⟨r, List.mem_of_find?_eq_some hfc2, List.find?_some hfc2⟩
      show st.usages.countP (isCurrentFor uid t2) = 1
      omega
    · intro h
      exact Option.noConfusion h
  | none =>
    have hfc2 : findCurrent st.usages uid t2 = none := by rw [← hf, hfc]
    rw [goc_none st uid t1 hfc]
    have hu0 : isCurrentFor uid t2
        { id := st.nextId, user := uid, descriptions_generated := 0,
          period_start := (currentPeriod t1).1, period_end := (currentPeriod t1).2 } = true := by
      simp [isCurrentFor, h2a, h2b]
    have hfind2 : findCurrent
        (st.usages ++
          [{ id := st.nextId, user := uid, descriptions_generated := 0,
             period_start := (currentPeriod t1).1, period_end := (currentPeriod t1).2 }]) uid t2 =
        some { id := st.nextId, user := uid, descriptions_generated := 0,
               period_start := (currentPeriod t1).1, period_end := (currentPeriod t1).2 } :=
      findCurrent_append st.usages _ uid t2 hfc2 hu0
    rw [goc_found _ uid t2 _ hfind2]
    refine ⟨rfl, rfl, ?_, fun _ => rfl⟩
    have hz : st.usages.countP (isCurrentFor uid t2) = 0 :=
      List.countP_eq_zero.mpr (List.find?_eq_none.mp hfc2)
    rw [List.countP_append, hz, List.countP_cons]
    simp [hu0]

/-- Witness for C6: two calls at the same mid-month instant on the
quota-5 fixture return the same record. -/
theorem get_or_create_current_idempotent_witness :
    (get_or_create_current (get_or_create_current (exState 3) 1 tMid).2 1 tMid).1 =
      (get_or_create_current (exState 3) 1 tMid).1 :=
  (get_or_create_current_idempotent (exState 3) 1 tMid tMid
    (by decide) (by decide) (by decide) (by decide)).1

/-- C8: a notification transport failure is caught: the success flag and
the resulting database state of increment_usage, and the resulting states
of handle_subscription_deleted and handle_payment_failed, are identical
whether the email send succeeds or raises; and the business mutation is
already persisted when the send fails — the deletion leaves the status
CANCELED and a successful consume leaves the incremented usage row. -/
theorem notification_failure_isolated (st : DBState) (uid : Nat) (now : DT)
    (sid : String) (subId : Option String) (e : Bool) :
    ((increment_usage st uid now e true).1 = (increment_usage st uid now e false).1 ∧
     (increment_usage st uid now e true).2.1 = (increment_usage st uid now e false).2.1) ∧
    (handle_subscription_deleted st sid now e true).1 =
      (handle_subscription_deleted st sid now e false).1 ∧
    (handle_payment_failed st subId e true).1 = (handle_payment_failed st subId e false).1 ∧
    (∀ uid2 sub, findSubByStripeId st sid = some (uid2, sub) →
      (st.subs.map Prod.fst).Nodup →
      (lookupSub (handle_subscription_deleted st sid now e false).1.subs uid2).map
          (fun s => s.status) = some Status.CANCELED) ∧
    (∀ sub r, lookupSub st.subs uid = some sub →
      (sub.status = .ACTIVE ∨ sub.status = .TRIALING) →
      sub.plan.description_quota ≠ -1 →
      findCurrent st.usages uid now = some r →
      r.descriptions_generated < sub.plan.description_quota →
      (st.usages.map Usage.id).Nodup →
      findCurrent (increment_usage st uid now e false).2.1.usages uid now =
        some { r with descriptions_generated := r.descriptions_generated + 1 }) := by
  refine ⟨⟨?_, ?_⟩, ?_, ?_, ?_, ?_⟩
  · cases h : (check_usage_quota st uid now).1.1 <;> simp [increment_usage, h]
  · cases h : (check_usage_quota st uid now).1.1 <;> simp [increment_usage, h]
  · cases hfind : findSubByStripeId st sid <;> simp [handle_subscription_deleted, hfind]
  · cases subId with
    | none => rfl
    | some s2 =>
      by_cases hs : s2 = ""
      · simp [handle_payment_failed, hs]
      · cases hfind : findSubByStripeId st s2 <;>
          simp [handle_payment_failed, hs, hfind]
  · intro uid2 sub hfind hnd
    have h1 : handle_subscription_deleted st sid now e false =
        (saveSub st uid2 { sub with status := Status.CANCELED, canceled_at := some now },
         if e then [Notif.cancellationFailed uid2] else []) := by
      simp only [handle_subscription_deleted, hfind]
      rfl
    rw [h1, lookupSub_saveSub, findStripe_lookup st.subs sid uid2 sub hnd hfind]
    rfl
  · intro sub r hsub hact hfin hr hlt hnd
    have hstep := increment_found st uid now e false sub r hsub hact hfin hr hlt
    rw [hstep]
    exact findCurrent_saveUsage st uid now r _ hnd hr rfl
      (by have h1 : isCurrentFor uid now r = true := List.find?_some hr; exact h1)

/-- Witness for C8: with the transport failing, the deletion handler still
leaves the fixture subscription CANCELED. -/
theorem notification_failure_isolated_witness :
    (lookupSub (handle_subscription_deleted exStateCA "sub_1" tMid true false).1.subs 1).map
        (fun s => s.status) = some Status.CANCELED :=
  (notification_failure_isolated exStateCA 1 tMid "sub_1" none true).2.2.2.1
    1 exSubCA (by decide) (by decide)

lemma quotaWarningCondition_iff (n q : Int) :
    quotaWarningCondition n q = true ↔
      (0 < q ∧ (100 * n ≥ 100 * q ∨ 100 * n ≥ 90 * q ∨ (100 * n ≥ 80 * q ∧ n % 10 = 0))) := by
  simp [quotaWarningCondition]
  intro
  tauto

/-- C9: during a successful consume on a finite-quota plan (warnings
enabled), a quota warning is attempted exactly per the code's tiers: at or
above 90% of quota (which subsumes the 100% tier) it fires every time; in
the [80%, 90%) band it fires only when the new usage count is a multiple
of ten; below 80% it never fires; and no quota warning is ever attempted
on the unlimited (-1) plan. -/
theorem quota_warning_tiers (st : DBState) (uid : Nat) (now : DT) (ok : Bool)
    (sub : UserSubscription) (r : Usage)
    (hsub : lookupSub st.subs uid = some sub)
    (hact : sub.status = .ACTIVE ∨ sub.status = .TRIALING)
    (hr : findCurrent st.usages uid now = some r)
    (hn : 0 ≤ r.descriptions_generated) :
    (sub.plan.description_quota = -1 →
      (increment_usage st uid now true ok).1 = true ∧
      (increment_usage st uid now true ok).2.2 = []) ∧
    (∀ Q : Int, sub.plan.description_quota = Q →
      r.descriptions_generated < Q →
      ((increment_usage st uid now true ok).1 = true ∧
       (100 * (r.descriptions_generated + 1) ≥ 90 * Q →
         (increment_usage st uid now true ok).2.2 ≠ []) ∧
       (80 * Q ≤ 100 * (r.descriptions_generated + 1) ∧
         100 * (r.descriptions_generated + 1) < 90 * Q →
         ((increment_usage st uid now true ok).2.2 ≠ [] ↔
           (r.descriptions_generated + 1) % 10 = 0)) ∧
       (100 * (r.descriptions_generated + 1) < 80 * Q →
         (increment_usage st uid now true ok).2.2 = []))) := by
  constructor
  · intro hq
    rw [increment_found_unlimited st uid now true ok sub r hsub hact hq hr]
    exact ⟨rfl, rfl⟩
  · intro Q hq hlt
    subst hq
    have hfin : sub.plan.description_quota ≠ -1 := by omega
    rw [increment_found st uid now true ok sub r hsub hact hfin hr hlt]
    refine ⟨rfl, ?_, ?_, ?_⟩
    · intro h90
      have hc : quotaWarningCondition (r.descriptions_generated + 1)
          sub.plan.description_quota = true :=
        (quotaWarningCondition_iff _ _).mpr (by omega)
      simp [hc]
    · intro hband
      cases hc : quotaWarningCondition (r.descriptions_generated + 1)
          sub.plan.description_quota with
      | true =>
        have hdis := (quotaWarningCondition_iff _ _).mp hc
        simp [hc]
        omega
      | false =>
        have hneg : ¬ (0 < sub.plan.description_quota ∧
            (100 * (r.descriptions_generated + 1) ≥ 100 * sub.plan.description_quota ∨
             100 * (r.descriptions_generated + 1) ≥ 90 * sub.plan.description_quota ∨
             (100 * (r.descriptions_generated + 1) ≥ 80 * sub.plan.description_quota ∧
              (r.descriptions_generated + 1) % 10 = 0))) := by
          rw [← quotaWarningCondition_iff]
          simp [hc]
        simp [hc]
        omega
    · intro hlow
      have hc : ¬ (quotaWarningCondition (r.descriptions_generated + 1)
          sub.plan.description_quota = true) := by
        rw [quotaWarningCondition_iff]
        omega
      rw [Bool.not_eq_true] at hc
      simp [hc]

/-- Witness for C9: at count 4 of quota 5, the successful consume lands on
100% (500 ≥ 450), so the warning is attempted. -/
theorem quota_warning_tiers_witness :
    (increment_usage (exState 4) 1 tMid true true).2.2 ≠ [] :=
  ((quota_warning_tiers (exState 4) 1 tMid true exSub5 (exUsage 4)
      (by decide) (Or.inl (by decide)) (by decide) (by decide)).2
    5 (by decide) (by decide)).2.1 (by decide)

/-- C1: for a user with an ACTIVE/TRIALING subscription on a finite-quota
plan with quota Q, starting from a current-period count of 0, the first Q
consume calls all succeed, after N of them the count is N and
check_usage_quota reports remaining = max(0, Q - N); once the count has
reached Q the next consume returns false leaving the state (hence the
count) unchanged, and check_usage_quota then reports (false, 0).  The
concrete scenario — quota 5, count 4: consume succeeds and the count
becomes 5, the next consume fails and the state is unchanged, and
checkQuota reports (false, 0) — is included as stated. -/
theorem consume_quota_progress (st : DBState) (uid : Nat) (now : DT) (e ok : Bool)
    (sub : UserSubscription) (r0 : Usage) (Q : Nat)
    (hsub : lookupSub st.subs uid = some sub)
    (hact : sub.status = .ACTIVE ∨ sub.status = .TRIALING)
    (hq : sub.plan.description_quota = (Q : Int))
    (hr : findCurrent st.usages uid now = some r0)
    (h0 : r0.descriptions_generated = 0)
    (hnd : (st.usages.map Usage.id).Nodup) :
    (∀ N : Nat, N ≤ Q →
      (consumeN uid now e ok N st).2 = true ∧
      findCurrent (consumeN uid now e ok N st).1.usages uid now =
        some { r0 with descriptions_generated := (N : Int) } ∧
      (check_usage_quota (consumeN uid now e ok N st).1 uid now).1.2 =
        .finite (max 0 ((Q : Int) - (N : Int)))) ∧
    increment_usage (consumeN uid now e ok Q st).1 uid now e ok =
      (false, (consumeN uid now e ok Q st).1, []) ∧
    (check_usage_quota (consumeN uid now e ok Q st).1 uid now).1 = (false, .finite 0) ∧
    ((increment_usage (exState 4) 1 tMid true true).1 = true ∧
     findCurrent (increment_usage (exState 4) 1 tMid true true).2.1.usages 1 tMid =
       some (exUsage 5) ∧
     (increment_usage (increment_usage (exState 4) 1 tMid true true).2.1 1 tMid true true).1 =
       false ∧
     (increment_usage (increment_usage (exState 4) 1 tMid true true).2.1 1 tMid true true).2.1 =
       (increment_usage (exState 4) 1 tMid true true).2.1 ∧
     (check_usage_quota (increment_usage (exState 4) 1 tMid true true).2.1 1 tMid).1 =
       (false, .finite 0)) := by
  have hfin : sub.plan.description_quota ≠ -1 := by rw [hq]; omega
  have hstate := consumeN_state st uid now e ok sub r0 Q hsub hact hq hr h0 hnd
  have hcur : ∀ N : Nat,
      findCurrent (saveUsage st { r0 with descriptions_generated := (N : Int) }).usages uid now =
        some { r0 with descriptions_generated := (N : Int) } := fun N =>
    findCurrent_saveUsage st uid now r0 { r0 with descriptions_generated := (N : Int) }
      hnd hr rfl (by have h1 : isCurrentFor uid now r0 = true := List.find?_some hr; exact h1)
  have hsubN : ∀ N : Nat,
      lookupSub (saveUsage st { r0 with descriptions_generated := (N : Int) }).subs uid =
        some sub := fun N => by rw [saveUsage_subs]; exact hsub
  refine ⟨?_, ?_, ?_, ?_⟩
  · intro N hN
    rw [hstate N hN]
    refine ⟨rfl, hcur N, ?_⟩
    rw [check_found (saveUsage st { r0 with descriptions_generated := (N : Int) }) uid now sub
      { r0 with descriptions_generated := (N : Int) } (hsubN N) hact hfin (hcur N)]
    simp only [hq]
    congr 1
    omega
  · rw [hstate Q (le_refl Q)]
    exact increment_found_fail (saveUsage st { r0 with descriptions_generated := (Q : Int) })
      uid now e ok sub { r0 with descriptions_generated := (Q : Int) }
      (hsubN Q) hact hfin (hcur Q) (by rw [hq])
  · rw [hstate Q (le_refl Q)]
    rw [check_found (saveUsage st { r0 with descriptions_generated := (Q : Int) }) uid now sub
      { r0 with descriptions_generated := (Q : Int) } (hsubN Q) hact hfin (hcur Q)]
    simp only [hq]
    have hz : ((Q : Int) - (Q : Int)) = 0 := by omega
    simp [hz]
  · refine ⟨by decide, by decide, by decide, by decide, by decide⟩

/-- Witness for C1: with quota 5 from count 0, five consume calls all
succeed and check_usage_quota then reports (false, 0). -/
theorem consume_quota_progress_witness :
    (consumeN 1 tMid true true 5 (exState 0)).2 = true ∧
    (check_usage_quota (consumeN 1 tMid true true 5 (exState 0)).1 1 tMid).1 =
      (false, .finite 0) := by
  have h := consume_quota_progress (exState 0) 1 tMid true true exSub5 (exUsage 0) 5
    (by decide) (Or.inl (by decide)) (by decide) (by decide) (by decide) (by decide)
  exact ⟨(h.1 5 (by decide)).1, h.2.2.1⟩

/-- C10: a successful consume increments descriptions_generated of the
user's current-period usage row by exactly 1 and modifies no other
persistent state: the subscriptions table (hence every Subscription field
and every embedded Plan) is unchanged, and every usage row belonging to
another user, or whose stored period does not contain `now` (any past
period), is still present unchanged. -/
theorem consume_frame (st : DBState) (uid : Nat) (now : DT) (e ok : Bool)
    (sub : UserSubscription)
    (hsub : lookupSub st.subs uid = some sub)
    (hnd : (st.usages.map Usage.id).Nodup)
    (hfresh : ∀ v ∈ st.usages, v.id ≠ st.nextId)
    (hnow1 : DT.ble (currentPeriod now).1 now = true)
    (hnow2 : DT.ble now (currentPeriod now).2 = true)
    (hsucc : (increment_usage st uid now e ok).1 = true) :
    (increment_usage st uid now e ok).2.1.subs = st.subs ∧
    (∃ u, findCurrent (increment_usage st uid now e ok).2.1.usages uid now = some u ∧
      u.descriptions_generated =
        (match findCurrent st.usages uid now with
         | some r => r.descriptions_generated
         | none => 0) + 1) ∧
    (∀ v ∈ st.usages, v.user ≠ uid → v ∈ (increment_usage st uid now e ok).2.1.usages) ∧
    (∀ v ∈ st.usages, isCurrentFor uid now v = false →
      v ∈ (increment_usage st uid now e ok).2.1.usages) := by
  have hact : sub.status = Status.ACTIVE ∨ sub.status = Status.TRIALING := by
    by_cases h : sub.status = Status.ACTIVE ∨ sub.status = Status.TRIALING
    · exact h
    · exfalso
      push_neg at h
      simp [increment_usage, check_inactive st uid now sub hsub h] at hsucc
  cases hfc : findCurrent st.usages uid now with
  | some r =>
    have hruid : r.user = uid := by
      have h1 : isCurrentFor uid now r = true := List.find?_some hfc
      simp only [isCurrentFor, Bool.and_eq_true, beq_iff_eq] at h1
      exact h1.1.1
    have hframe3 : ∀ v ∈ st.usages, v.user ≠ uid →
        v ∈ (saveUsage st { r with
          descriptions_generated := r.descriptions_generated + 1 }).usages := by
      intro v hv hvne
      refine mem_replace_of_ne st.usages _ v hv ?_
      intro hid
      have : v = r := List.inj_on_of_nodup_map hnd hv (List.mem_of_find?_eq_some hfc) hid
      rw [this, hruid] at hvne
      exact hvne rfl
    have hframe4 : ∀ v ∈ st.usages, isCurrentFor uid now v = false →
        v ∈ (saveUsage st { r with
          descriptions_generated := r.descriptions_generated + 1 }).usages := by
      intro v hv hvcur
      refine mem_replace_of_ne st.usages _ v hv ?_
      intro hid
      have hvr : v = r := List.inj_on_of_nodup_map hnd hv (List.mem_of_find?_eq_some hfc) hid
      have h1 : isCurrentFor uid now r = true := List.find?_some hfc
      rw [hvr, h1] at hvcur
      cases hvcur
    have hcurS : findCurrent (saveUsage st { r with
        descriptions_generated := r.descriptions_generated + 1 }).usages uid now =
        some { r with descriptions_generated := r.descriptions_generated + 1 } :=
      findCurrent_saveUsage st uid now r _ hnd hfc rfl
        (by have h1 : isCurrentFor uid now r = true := List.find?_some hfc; exact h1)
    by_cases hunl : sub.plan.description_quota = -1
    · have hstep := increment_found_unlimited st uid now e ok sub r hsub hact hunl hfc
      simp only [hstep, hfc]
      exact ⟨rfl, ⟨_, hcurS, rfl⟩, hframe3, hframe4⟩
    · have hlt : r.descriptions_generated < sub.plan.description_quota := by
        by_contra hge
        push_neg at hge
        rw [increment_found_fail st uid now e ok sub r hsub hact hunl hfc hge] at hsucc
        simp at hsucc
      have hstep := increment_found st uid now e ok sub r hsub hact hunl hfc hlt
      simp only [hstep, hfc]
      exact ⟨rfl, ⟨_, hcurS, rfl⟩, hframe3, hframe4⟩
  | none =>
    have hcurNew : findCurrent
        (st.usages ++
          [{ id := st.nextId, user := uid, descriptions_generated := 0 + 1,
             period_start := (currentPeriod now).1, period_end := (currentPeriod now).2 }])
        uid now =
        some { id := st.nextId, user := uid, descriptions_generated := 0 + 1,
               period_start := (currentPeriod now).1, period_end := (currentPeriod now).2 } :=
      findCurrent_append st.usages _ uid now hfc (by simp [isCurrentFor, hnow1, hnow2])
    by_cases hunl : sub.plan.description_quota = -1
    · have hstep := increment_create_unlimited st uid now e ok sub hsub hact hunl hfc
        hfresh hnow1 hnow2
      simp only [hstep, hfc]
      exact ⟨trivial, ⟨_, hcurNew, rfl⟩,
        fun v hv _ => List.mem_append_left _ hv,
        fun v hv _ => List.mem_append_left _ hv⟩
    · have hpos : 0 < sub.plan.description_quota := by
        by_contra hng
        push_neg at hng
        have hc := check_create_finite st uid now sub hsub hact hunl hfc
        have hdec : decide (sub.plan.description_quota > 0) = false := by
          rw [decide_eq_false_iff_not]
          omega
        rw [hdec] at hc
        simp [increment_usage, hc] at hsucc
      have hstep := increment_create_finite st uid now e ok sub hsub hact hunl hpos hfc
        hfresh hnow1 hnow2
      simp only [hstep, hfc]
      exact ⟨trivial, ⟨_, hcurNew, rfl⟩,
        fun v hv _ => List.mem_append_left _ hv,
        fun v hv _ => List.mem_append_left _ hv⟩

/-- Witness for C10: on the quota-5 fixture at count 3, a successful
consume leaves the subscriptions table unchanged. -/
theorem consume_frame_witness :
    (increment_usage (exState 3) 1 tMid true true).2.1.subs = (exState 3).subs :=
  (consume_frame (exState 3) 1 tMid true true exSub5 (by decide) (by decide) (by decide)
    (by decide) (by decide) (by decide)).1
